import Mathlib

/-!
Verification of the teams-core simulation engine against its specification.

The repository contains two parallel snapshots of the Task/SubTask state
machine: the current component version in
src/agents/components/tasking.py (namespace `Tasking` below) and the
superseded version in src/types.py (namespace `Types` below).  Both are
embedded faithfully, because several spec claims quantify over both.

Python floats are embedded as rationals; the arithmetic expressions in the
source are translated term by term, so algebraic identities between the
spec formulas and the code formulas are metric-independent of rounding.
Python exceptions are embedded as the error case of Except; a method that
raises before mutating leaves the caller state unchanged, which the
`Run`-suffixed wrappers make explicit.
-/

/-- Boolean success test for an embedded Python call: true when the call
returned normally, false when it raised. -/
def isOkB {ε α : Type} : Except ε α → Bool
  | .ok _ => true
  | .error _ => false

namespace Tasking

/-- Status enum of tasking.py (class TaskStatus, lines 10-14). -/
inductive TaskStatus where
  | BACKLOG
  | IN_PROGRESS
  | COMPLETED
  | BLOCKED
deriving DecidableEq, Repr

/-- Status enum of tasking.py (class SubTaskStatus, lines 16-20). -/
inductive SubTaskStatus where
  | NOT_STARTED
  | IN_PROGRESS
  | COMPLETED
  | BLOCKED
deriving DecidableEq, Repr

/-- SubTask dataclass of tasking.py (lines 69-81); fields irrelevant to the
claims (name, assigned_to, required_steps, steps_completed) are omitted. -/
structure SubTask where
  id : String
  status : SubTaskStatus
  dependencies : List String
  required_knowledge : List String
  difficulty : Nat
  progress : ℚ
  start_time : Option Nat
deriving DecidableEq, Repr

/-- SubTask.can_start (tasking.py lines 87-91): every dependency id must be
in the supplied completed list.  The Python falsy-guard that replaces an
empty or missing list by [] is semantically the identity and is dropped. -/
def SubTask.can_start (st : SubTask) (completed_subtasks : List String) : Bool :=
  st.dependencies.all (fun dep_id => completed_subtasks.contains dep_id)

/-- SubTask.start (tasking.py lines 93-105): raises when dependencies are
unmet, then raises unless the status is NOT_STARTED, else transitions to
IN_PROGRESS and records the start step. -/
def SubTask.start (st : SubTask) (completed_subtasks : List String) (step : Nat) :
    Except String SubTask :=
  if ¬ st.can_start completed_subtasks then
    .error "Cannot start: dependencies not met"
  else if st.status = SubTaskStatus.NOT_STARTED then
    .ok { st with status := SubTaskStatus.IN_PROGRESS, start_time := some step }
  else
    .error "Cannot start subtask with current status"

/-- State of the subtask object after calling start: on an exception the
Python object is unchanged (both raises happen before any mutation). -/
def SubTask.startRun (st : SubTask) (completed_subtasks : List String) (step : Nat) : SubTask :=
  match st.start completed_subtasks step with
  | .ok st2 => st2
  | .error _ => st

/-- SubTask.complete (tasking.py lines 107-113): only an IN_PROGRESS
subtask may complete; completion sets progress to 1. -/
def SubTask.complete (st : SubTask) : Except String SubTask :=
  if st.status = SubTaskStatus.IN_PROGRESS then
    .ok { st with status := SubTaskStatus.COMPLETED, progress := 1 }
  else
    .error "Cannot complete subtask with current status"

/-- State of the subtask object after calling complete (unchanged when the
call raised, since the raise precedes any mutation). -/
def SubTask.completeRun (st : SubTask) : SubTask :=
  match st.complete with
  | .ok st2 => st2
  | .error _ => st

/-- Task dataclass of tasking.py (lines 22-30); name and assigned_to are
omitted as irrelevant to the claims. -/
structure Task where
  id : String
  status : TaskStatus
  difficulty : Nat
  subtasks : List SubTask
  start_time : Option Nat
deriving DecidableEq, Repr

/-- Task.get_progress (tasking.py lines 32-37): 0.0 for an empty subtask
list, else the count of COMPLETED subtasks over the total count. -/
def Task.get_progress (t : Task) : ℚ :=
  if t.subtasks.isEmpty then 0
  else
    ((t.subtasks.filter (fun st => st.status = SubTaskStatus.COMPLETED)).length : ℚ)
      / (t.subtasks.length : ℚ)

/-- Task.complete (tasking.py lines 47-52): only an IN_PROGRESS task may
complete. -/
def Task.complete (t : Task) : Except String Task :=
  if t.status = TaskStatus.IN_PROGRESS then
    .ok { t with status := TaskStatus.COMPLETED }
  else
    .error "Cannot complete task with current status"

/-- State of the task object after calling complete (unchanged when the
call raised). -/
def Task.completeRun (t : Task) : Task :=
  match t.complete with
  | .ok t2 => t2
  | .error _ => t

end Tasking

namespace Types

/-- Status enum of types.py (lines 19-25); note it differs from the
tasking.py enum: extra ACTIVE, WORKING, LEARNING members and no BLOCKED. -/
inductive SubTaskStatus where
  | NOT_STARTED
  | ACTIVE
  | COMPLETED
  | IN_PROGRESS
  | WORKING
  | LEARNING
deriving DecidableEq, Repr

/-- Status enum of types.py (lines 13-17). -/
inductive TaskStatus where
  | BACKLOG
  | IN_PROGRESS
  | COMPLETED
  | BLOCKED
deriving DecidableEq, Repr

/-- SubTask dataclass of types.py (lines 70-81), claim-relevant fields. -/
structure SubTask where
  id : String
  status : SubTaskStatus
  dependencies : List String
  required_knowledge : List String
  difficulty : Nat
  progress : ℚ
deriving DecidableEq, Repr

/-- Task dataclass of types.py (lines 28-35), claim-relevant fields. -/
structure Task where
  id : String
  status : TaskStatus
  difficulty : Nat
  subtasks : List SubTask
deriving DecidableEq, Repr

/-- Python comparison between a member of the plain Enum SubTaskStatus of
types.py and a string literal.  types.py imports Enum (not StrEnum), and a
plain enum.Enum member never compares equal to its value string, so this
comparison is identically false; types.py line 38 compares task.status
against the string value directly. -/
def statusEqString (_s : SubTaskStatus) (_v : String) : Bool :=
  false

/-- Task.get_progress of types.py (lines 37-39): counts subtasks whose
status compares equal to the string value, then divides by the difficulty
field (ZeroDivisionError when difficulty is zero).  There is no empty-list
guard and the divisor is difficulty, not the number of subtasks. -/
def Task.get_progress (t : Task) : Except String ℚ :=
  if t.difficulty = 0 then .error "ZeroDivisionError"
  else
    .ok (((t.subtasks.filter (fun st => statusEqString st.status "completed")).length : ℚ)
      / (t.difficulty : ℚ))

/-- SubTask.can_start of types.py (lines 87-88): iterates the dependency
list testing membership in the supplied argument.  When the caller passes
None (the default of start), the membership test raises TypeError on the
first dependency; with no dependencies the generator never evaluates it. -/
def SubTask.can_start (st : SubTask) (completed_subtasks : Option (List String)) :
    Except String Bool :=
  match completed_subtasks with
  | none =>
    if st.dependencies.isEmpty then .ok true
    else .error "TypeError: argument of type NoneType is not iterable"
  | some l => .ok (st.dependencies.all (fun dep_id => l.contains dep_id))

/-- SubTask.start of types.py (lines 90-99): can_start is evaluated first
(possibly raising TypeError on the None default), then the dependency
check, then the NOT_STARTED status check. -/
def SubTask.start (st : SubTask) (completed_subtasks : Option (List String)) :
    Except String SubTask :=
  match st.can_start completed_subtasks with
  | .error e => .error e
  | .ok ok =>
    if ¬ ok then .error "Cannot start: dependencies not met"
    else if st.status = SubTaskStatus.NOT_STARTED then
      .ok { st with status := SubTaskStatus.IN_PROGRESS }
    else
      .error "Cannot start subtask with current status"

/-- SubTask.complete of types.py (lines 101-103): unconditional, sets the
status to COMPLETED from any state and never raises. -/
def SubTask.complete (st : SubTask) : Except String SubTask :=
  .ok { st with status := SubTaskStatus.COMPLETED }

/-- Task.complete of types.py (lines 48-53): only IN_PROGRESS may
complete. -/
def Task.complete (t : Task) : Except String Task :=
  if t.status = TaskStatus.IN_PROGRESS then
    .ok { t with status := TaskStatus.COMPLETED }
  else
    .error "Cannot complete task with current status"

/-- State of the types.py task object after calling complete. -/
def Task.completeRun (t : Task) : Task :=
  match t.complete with
  | .ok t2 => t2
  | .error _ => t

end Types

namespace Psych

/-- Psychological-safety state of an EngineerAgent (engineer.py lines
27-28): pps is perceived and cps contributed psychological safety. -/
structure PsychState where
  pps : ℚ
  cps : ℚ
deriving DecidableEq, Repr

/-- EngineerAgent.update_cps (engineer.py lines 223-232): cps relaxes by
a factor 0.05 toward the target 2 times pps minus 1, then is clamped to
the interval from -1 to 1 via max and min exactly as in the source. -/
def update_cps (a : PsychState) : PsychState :=
  let target_cps : ℚ := 2 * a.pps - 1
  let c : ℚ := a.cps + 5 / 100 * (target_cps - a.cps)
  { a with cps := max (min c 1) (-1) }

/-- Psychological-safety portion of EngineerAgent.process_interaction
(engineer.py lines 190-193): speaking_time is the speaking percentage
times the interaction duration, pps is incremented by the partner cps
times speaking_time times 0.01, and update_cps runs immediately after.
The interaction partner enters only through its cps value. -/
def process_interaction (a : PsychState) (partner_cps speaking_percentage duration : ℚ) :
    PsychState :=
  let speaking_time : ℚ := speaking_percentage * duration
  update_cps { a with pps := a.pps + partner_cps * speaking_time * (1 / 100) }

/-- One processed interaction per list element, each element giving the
partner cps, the speaking percentage and the duration. -/
def processSeq (a : PsychState) (l : List (ℚ × ℚ × ℚ)) : PsychState :=
  l.foldl (fun s e => process_interaction s e.1 e.2.1 e.2.2) a

end Psych

namespace Knowledge

/-- KnowledgeNetwork.add_agent_knowledge (knowledge_network.py lines
31-35): creates the belief set of the agent when absent and inserts the
concept.  The network dict maps agent ids to believed concept sets; an
absent key is embedded as the empty set, which the source code and this
embedding both treat identically to a present empty set. -/
def add_agent_knowledge (network : String → Finset String) (unique_id concept : String) :
    String → Finset String :=
  fun k => if k = unique_id then insert concept (network k) else network k

/-- Claim-relevant state of a KnowledgeManager (knowledge_manager.py lines
14-19) together with its KnowledgeNetwork: the learned set, the
concept-learning-progress dict (none models an absent key) and the
network belief table. -/
structure KM where
  learned : Finset String
  progress : String → Option ℚ
  network : String → Finset String

/-- KnowledgeManager.receive_shared_knowledge (knowledge_manager.py lines
84-102): when the concept is new it is added to the learned set, the
network records the sender as knowing it, and True is returned; otherwise
only the network is updated and False is returned.  In neither branch is
the concept-learning-progress dict touched. -/
def receive_shared_knowledge (km : KM) (sender_id concept : String) : KM × Bool :=
  if concept ∉ km.learned then
    ({ km with learned := insert concept km.learned,
               network := add_agent_knowledge km.network sender_id concept }, true)
  else
    ({ km with network := add_agent_knowledge km.network sender_id concept }, false)

/-- KnowledgeManager.learn_concept (knowledge_manager.py lines 57-82).
The stochastic increment learning_rate times work_efficiency times a
uniform draw is externalized as the parameter inc.  Returns False at once
when the concept is already learned; otherwise initializes an absent
progress entry to zero, adds the increment, and when the accumulated
progress reaches 1 moves the concept to the learned set and deletes the
progress entry, returning True. -/
def learn_concept (km : KM) (concept : String) (inc : ℚ) : KM × Bool :=
  if concept ∈ km.learned then (km, false)
  else
    let p : ℚ := (km.progress concept).getD 0 + inc
    if 1 ≤ p then
      ({ km with learned := insert concept km.learned,
                 progress := fun k => if k = concept then none else km.progress k }, true)
    else
      ({ km with progress := fun k => if k = concept then some p else km.progress k }, false)

end Knowledge

namespace IH

/-- Interaction type enum of interaction_handler.py (lines 183-189). -/
inductive InteractionType where
  | COLLABORATION
  | HELP_REQUEST
  | HELP_OFFER
  | KNOWLEDGE_REQUEST
  | KNOWLEDGE_SHARE
  | FEEDBACK
deriving DecidableEq, Repr

/-- Claim-relevant state of the Interaction component
(interaction_handler.py lines 12-16): the help-request counters and the
length of the interaction history. -/
structure IHState where
  help_requests_made : Nat
  help_requests_received : Nat
  historyLen : Nat
deriving DecidableEq, Repr

/-- Interaction.handle_help_request (interaction_handler.py lines 96-102):
increments help_requests_made, then calls
self.create_knowledge_request_details, a method that is defined nowhere in
the repository (its only occurrence is this call site), so every
invocation raises AttributeError after the increment and the subsequent
forwarding line never runs. -/
def handle_help_request (s : IHState) : IHState × Except String Unit :=
  ({ s with help_requests_made := s.help_requests_made + 1 },
   .error "AttributeError: Interaction object has no attribute create_knowledge_request_details")

/-- Interaction type literal passed on the forwarding line
interaction_handler.py:102 (recipient.receive_interaction is invoked with
InteractionType.HELP_REQUEST, not KNOWLEDGE_REQUEST). -/
def helpRequestForwardType : InteractionType :=
  InteractionType.HELP_REQUEST

/-- HELP_REQUEST branch of Interaction.process_interaction
(interaction_handler.py lines 27-48): dispatches to handle_help_request;
only when the handler returns normally is an InteractionRecord appended to
the history (lines 40-48), otherwise the exception propagates. -/
def processHelpRequest (s : IHState) : IHState × Except String Unit :=
  let r := handle_help_request s
  match r.2 with
  | .error e => (r.1, .error e)
  | .ok _ => ({ r.1 with historyLen := r.1.historyLen + 1 }, .ok ())

end IH

namespace Movement

/-- Grid cell coordinates. -/
abbrev Pos := Int × Int

/-- Moore-neighborhood offsets with the center excluded, enumerated in the
order mesa generates them (x coordinate outer, y inner). -/
def mooreOffsets : List (Int × Int) :=
  [(-1, -1), (-1, 0), (-1, 1), (0, -1), (0, 1), (1, -1), (1, 0), (1, 1)]

/-- Result of grid.get_neighborhood(pos, moore=True, include_center=False)
on the non-toroidal w times h MultiGrid the model constructs (model.py
line 17): the in-bounds cells at Chebyshev distance one from pos. -/
def mooreNeighborhood (w h : Nat) (pos : Pos) : List Pos :=
  (mooreOffsets.map (fun d => (pos.1 + d.1, pos.2 + d.2))).filter
    (fun p => 0 ≤ p.1 ∧ p.1 < (w : Int) ∧ 0 ≤ p.2 ∧ p.2 < (h : Int))

/-- Squared Euclidean distance between two cells.  The grid distance used
by the movement code is Euclidean (spec section 4.6 fixes Euclidean for
the move heuristic); all the code does with distances is compare them, and
squaring is strictly monotone on nonnegative reals, so embedding the
comparisons through the squared distance preserves every comparison
outcome exactly. -/
def sqDist (a b : Pos) : Int :=
  (a.1 - b.1) ^ 2 + (a.2 - b.2) ^ 2

/-- Selection loop of EngineerAgent.move_toward_agent (engineer.py lines
409-416): best_move starts at None with an infinite best distance, and
each candidate step replaces it exactly when its distance to the target is
strictly smaller than the best so far. -/
def bestMoveAux (tp : Pos) : List Pos → Option (Pos × Int) → Option (Pos × Int)
  | [], acc => acc
  | step :: rest, acc =>
    match acc with
    | none => bestMoveAux tp rest (some (step, sqDist step tp))
    | some (b, bd) =>
      if sqDist step tp < bd then bestMoveAux tp rest (some (step, sqDist step tp))
      else bestMoveAux tp rest (some (b, bd))

/-- EngineerAgent.move_toward_agent (engineer.py lines 402-422): none
models a False return (no target, or no candidate produced a best move);
some p models a True return after moving the agent to cell p. -/
def move_toward_agent (w h : Nat) (pos : Pos) (target : Option Pos) : Option Pos :=
  match target with
  | none => none
  | some tp => (bestMoveAux tp (mooreNeighborhood w h pos) none).map (fun r => r.1)

/-- Selection loop of MovementController.move_toward_agent
(movement_controller.py lines 42-48): the loop iterates the candidate
steps but computes the scored distance from self.pos, the current cell,
to the target; the candidate step itself never enters the distance. -/
def mcBestAux (pos tp : Pos) : List Pos → Option (Pos × Int) → Option (Pos × Int)
  | [], acc => acc
  | step :: rest, acc =>
    match acc with
    | none => mcBestAux pos tp rest (some (step, sqDist pos tp))
    | some (b, bd) =>
      if sqDist pos tp < bd then mcBestAux pos tp rest (some (step, sqDist pos tp))
      else mcBestAux pos tp rest (some (b, bd))

/-- MovementController.move_toward_agent (movement_controller.py lines
32-54), with the same return-value convention as move_toward_agent. -/
def mc_move_toward_agent (w h : Nat) (pos : Pos) (target : Option Pos) : Option Pos :=
  match target with
  | none => none
  | some tp => (mcBestAux pos tp (mooreNeighborhood w h pos) none).map (fun r => r.1)

end Movement

section TaskClaims

/-- Bridge between the boolean dependency check of tasking.py and the
membership statement it computes. -/
lemma tasking_can_start_iff (st : Tasking.SubTask) (completed : List String) :
    st.can_start completed = true ↔ ∀ d ∈ st.dependencies, d ∈ completed := by
  simp [Tasking.SubTask.can_start]

/-- Bridge for the boolean dependency check of types.py when a completed
list is supplied. -/
lemma types_can_start_some (st : Types.SubTask) (completed : List String) :
    st.can_start (some completed) = .ok (st.dependencies.all (fun d => completed.contains d)) := rfl

/-- Claim C1: a SubTask whose dependency list is not contained in the supplied
completed set cannot start (the call raises and the status is unchanged),
and start succeeds exactly when the status is NOT_STARTED and every
dependency id is in the supplied completed set; this holds for the
tasking.py component SubTask and for the types.py SubTask. -/
theorem C1_subtask_start_dependency_gating :
    ∀ (st : Tasking.SubTask) (tst : Types.SubTask) (completed : List String) (step : Nat),
      (¬ (∀ d ∈ st.dependencies, d ∈ completed) →
        isOkB (st.start completed step) = false ∧ st.startRun completed step = st) ∧
      (isOkB (st.start completed step) = true ↔
        st.status = Tasking.SubTaskStatus.NOT_STARTED ∧ ∀ d ∈ st.dependencies, d ∈ completed) ∧
      (isOkB (tst.start (some completed)) = true ↔
        tst.status = Types.SubTaskStatus.NOT_STARTED ∧ ∀ d ∈ tst.dependencies, d ∈ completed) := by
  intro st tst completed step
  have hiff := tasking_can_start_iff st completed
  refine ⟨?_, ?_, ?_⟩
  · intro h
    have hf : st.can_start completed = false := by
      rcases Bool.eq_false_or_eq_true (st.can_start completed) with hc | hc
      · exact absurd (hiff.mp hc) h
      · exact hc
    constructor
    · simp [Tasking.SubTask.start, hf, isOkB]
    · simp [Tasking.SubTask.startRun, Tasking.SubTask.start, hf]
  · by_cases hd : ∀ d ∈ st.dependencies, d ∈ completed
    · have hc : st.can_start completed = true := hiff.mpr hd
      by_cases hs : st.status = Tasking.SubTaskStatus.NOT_STARTED
      · exact iff_of_true (by simp [Tasking.SubTask.start, hc, hs, isOkB]) ⟨hs, hd⟩
      · refine iff_of_false ?_ (fun h => hs h.1)
        simp [Tasking.SubTask.start, hc, hs, isOkB]
    · have hc : st.can_start completed = false := by
        rcases Bool.eq_false_or_eq_true (st.can_start completed) with hc | hc
        · exact absurd (hiff.mp hc) hd
        · exact hc
      refine iff_of_false ?_ (fun h => hd h.2)
      simp [Tasking.SubTask.start, hc, isOkB]
  · by_cases hd : ∀ d ∈ tst.dependencies, d ∈ completed
    · have hc : tst.dependencies.all (fun d => completed.contains d) = true := by
        simpa using hd
      by_cases hs : tst.status = Types.SubTaskStatus.NOT_STARTED
      · refine iff_of_true ?_ ⟨hs, hd⟩
        simp only [Types.SubTask.start, Types.SubTask.can_start, hc]
        simp [hs, isOkB]
      · refine iff_of_false ?_ (fun h => hs h.1)
        simp only [Types.SubTask.start, Types.SubTask.can_start, hc]
        simp [hs, isOkB]
    · have hc : tst.dependencies.all (fun d => completed.contains d) = false := by
        rcases Bool.eq_false_or_eq_true (tst.dependencies.all (fun d => completed.contains d))
          with hc | hc
        · exact absurd (by simpa using hc) hd
        · exact hc
      refine iff_of_false ?_ (fun h => hd h.2)
      simp only [Types.SubTask.start, Types.SubTask.can_start, hc]
      simp [isOkB]

/-- Witness for C1 at a concrete input: a subtask with one unmet
dependency fails to start. -/
theorem C1_witness :
    isOkB (Tasking.SubTask.start
      ⟨"s", Tasking.SubTaskStatus.NOT_STARTED, ["d1"], [], 1, 0, none⟩ [] 0) = false :=
  ((C1_subtask_start_dependency_gating
      ⟨"s", Tasking.SubTaskStatus.NOT_STARTED, ["d1"], [], 1, 0, none⟩
      ⟨"s", Types.SubTaskStatus.NOT_STARTED, [], [], 1, 0⟩ [] 0).1 (by simp)).1

/-- Claim C2 amended: for the tasking.py component Task, get_progress returns 0
for a task with no subtasks and otherwise the number of COMPLETED
subtasks divided by the total number of subtasks. -/
theorem C2_task_progress :
    ∀ t : Tasking.Task,
      (t.subtasks = [] → t.get_progress = 0) ∧
      (t.subtasks ≠ [] → t.get_progress =
        ((t.subtasks.countP (fun st => st.status = Tasking.SubTaskStatus.COMPLETED) : ℚ)
          / (t.subtasks.length : ℚ))) := by
  intro t
  constructor
  · intro h
    simp [Tasking.Task.get_progress, h]
  · intro h
    have hne : t.subtasks.isEmpty = false := by
      simpa [List.isEmpty_iff] using h
    rw [Tasking.Task.get_progress, hne]
    simp [List.countP_eq_length_filter]

/-- Witness for C2 at concrete inputs: the zero-subtask guard and the
ratio on a two-subtask task with one COMPLETED subtask. -/
theorem C2_witness :
    Tasking.Task.get_progress ⟨"t", Tasking.TaskStatus.BACKLOG, 3, [], none⟩ = 0 ∧
    Tasking.Task.get_progress
      ⟨"t", Tasking.TaskStatus.IN_PROGRESS, 3,
        [⟨"a", Tasking.SubTaskStatus.COMPLETED, [], [], 1, 1, none⟩,
         ⟨"b", Tasking.SubTaskStatus.NOT_STARTED, [], [], 1, 0, none⟩], none⟩ = 1 / 2 := by
  constructor
  · exact (C2_task_progress _).1 rfl
  · rw [(C2_task_progress _).2 (by simp)]
    rw [List.countP_cons, List.countP_cons]
    rw [if_neg (by decide), if_pos (by decide)]
    norm_num

/-- Example types.py subtask in status COMPLETED. -/
def exTypesSubC : Types.SubTask :=
  ⟨"s1", Types.SubTaskStatus.COMPLETED, [], [], 1, 1⟩

/-- Example types.py subtask in status NOT_STARTED. -/
def exTypesSubN : Types.SubTask :=
  ⟨"s2", Types.SubTaskStatus.NOT_STARTED, [], [], 1, 0⟩

/-- Example types.py task with difficulty 4 and one of two subtasks
COMPLETED. -/
def exTypesTask : Types.Task :=
  ⟨"t1", Types.TaskStatus.IN_PROGRESS, 4, [exTypesSubC, exTypesSubN]⟩

/-- Claim C2 counterexample: on the types.py Task with one COMPLETED subtask out
of two, the claim predicts progress one half, but the code returns 0 (it
divides by the difficulty field, 4, and its comparison of a plain Enum
member against the string value counts no subtask as completed). -/
theorem C2_counterexample :
    Types.Task.get_progress exTypesTask = .ok 0 ∧
    ((exTypesTask.subtasks.countP
        (fun st => st.status = Types.SubTaskStatus.COMPLETED) : ℚ)
      / (exTypesTask.subtasks.length : ℚ)) = 1 / 2 ∧
    (0 : ℚ) ≠ 1 / 2 := by
  refine ⟨?_, ?_, by norm_num⟩
  · simp [Types.Task.get_progress, exTypesTask, Types.statusEqString]
  · show ((([exTypesSubC, exTypesSubN].countP
        (fun st => st.status = Types.SubTaskStatus.COMPLETED)) : ℚ)
      / (([exTypesSubC, exTypesSubN] : List Types.SubTask).length : ℚ)) = 1 / 2
    rw [List.countP_cons, List.countP_cons]
    rw [if_neg (by decide), if_pos (by decide)]
    norm_num

/-- Claim C7 amended: complete() fails and leaves the object unchanged unless
the status is IN_PROGRESS, and succeeds exactly on IN_PROGRESS, for the
tasking.py SubTask and Task and for the types.py Task (the types.py
SubTask.complete is unconditional, see the counterexample). -/
theorem C7_complete_requires_in_progress :
    ∀ (st : Tasking.SubTask) (t : Tasking.Task) (tt : Types.Task),
      (isOkB st.complete = true ↔ st.status = Tasking.SubTaskStatus.IN_PROGRESS) ∧
      (st.status ≠ Tasking.SubTaskStatus.IN_PROGRESS → st.completeRun = st) ∧
      (isOkB t.complete = true ↔ t.status = Tasking.TaskStatus.IN_PROGRESS) ∧
      (t.status ≠ Tasking.TaskStatus.IN_PROGRESS → t.completeRun = t) ∧
      (isOkB tt.complete = true ↔ tt.status = Types.TaskStatus.IN_PROGRESS) ∧
      (tt.status ≠ Types.TaskStatus.IN_PROGRESS → tt.completeRun = tt) := by
  intro st t tt
  refine ⟨?_, ?_, ?_, ?_, ?_, ?_⟩
  · by_cases h : st.status = Tasking.SubTaskStatus.IN_PROGRESS <;>
      simp [Tasking.SubTask.complete, h, isOkB]
  · intro h
    simp [Tasking.SubTask.completeRun, Tasking.SubTask.complete, h]
  · by_cases h : t.status = Tasking.TaskStatus.IN_PROGRESS <;>
      simp [Tasking.Task.complete, h, isOkB]
  · intro h
    simp [Tasking.Task.completeRun, Tasking.Task.complete, h]
  · by_cases h : tt.status = Types.TaskStatus.IN_PROGRESS <;>
      simp [Types.Task.complete, h, isOkB]
  · intro h
    simp [Types.Task.completeRun, Types.Task.complete, h]

/-- Witness for C7 at a concrete input: an IN_PROGRESS subtask completes
and a BACKLOG task does not change under a failing complete call. -/
theorem C7_witness :
    isOkB (Tasking.SubTask.complete
      ⟨"s", Tasking.SubTaskStatus.IN_PROGRESS, [], [], 1, 0, none⟩) = true ∧
    Tasking.Task.completeRun ⟨"t", Tasking.TaskStatus.BACKLOG, 1, [], none⟩ =
      ⟨"t", Tasking.TaskStatus.BACKLOG, 1, [], none⟩ := by
  have h := C7_complete_requires_in_progress
    ⟨"s", Tasking.SubTaskStatus.IN_PROGRESS, [], [], 1, 0, none⟩
    ⟨"t", Tasking.TaskStatus.BACKLOG, 1, [], none⟩
    ⟨"tt", Types.TaskStatus.BACKLOG, 1, []⟩
  exact ⟨h.1.mpr rfl, h.2.2.2.1 (by simp)⟩

/-- Claim C7 counterexample: the types.py SubTask.complete succeeds on a
NOT_STARTED subtask (no exception, status forced to COMPLETED), while the
claim requires every complete() call outside IN_PROGRESS to fail. -/
theorem C7_counterexample :
    Types.SubTask.complete exTypesSubN =
      .ok { exTypesSubN with status := Types.SubTaskStatus.COMPLETED } ∧
    exTypesSubN.status ≠ Types.SubTaskStatus.IN_PROGRESS :=
  ⟨rfl, by decide⟩

end TaskClaims

section PsychClaims

/-- Unfolding of the pps update of process_interaction: update_cps leaves
pps untouched, so the pps after an interaction is the pps before plus the
partner cps times speaking time times one hundredth. -/
lemma process_interaction_pps (a : Psych.PsychState) (pc s d : ℚ) :
    (Psych.process_interaction a pc s d).pps = a.pps + pc * (s * d) * (1 / 100) := by
  simp [Psych.process_interaction, Psych.update_cps]

/-- The cps produced by update_cps always lies in the clamp interval. -/
lemma update_cps_bounds (a : Psych.PsychState) :
    -1 ≤ (Psych.update_cps a).cps ∧ (Psych.update_cps a).cps ≤ 1 := by
  unfold Psych.update_cps
  constructor
  · exact le_max_right _ _
  · exact max_le (min_le_right _ _) (by norm_num)

/-- The pps reached after n identical interactions with a partner of
contributed safety c, speaking percentage s and duration d. -/
lemma processSeq_replicate_pps (c s d : ℚ) :
    ∀ (n : ℕ) (a : Psych.PsychState),
      (Psych.processSeq a (List.replicate n (c, s, d))).pps =
        a.pps + n * (c * (s * d) * (1 / 100)) := by
  intro n
  induction n with
  | zero => intro a; simp [Psych.processSeq]
  | succ n ih =>
    intro a
    rw [List.replicate_succ]
    have hstep : Psych.processSeq a ((c, s, d) :: List.replicate n (c, s, d)) =
        Psych.processSeq (Psych.process_interaction a c s d) (List.replicate n (c, s, d)) := rfl
    rw [hstep, ih, process_interaction_pps]
    push_cast
    ring

/-- Claim C3: on every processed interaction the pps of the acting agent changes by
exactly the partner cps times (speaking percentage times duration) times
0.01, and immediately afterwards cps is moved by 0.05 times the gap from
cps to 2 times the new pps minus 1, then clamped to the interval from -1
to 1. -/
theorem C3_psych_safety_update_formulas :
    ∀ (a : Psych.PsychState) (partner_cps s d : ℚ),
      (Psych.process_interaction a partner_cps s d).pps =
        a.pps + partner_cps * (s * d) * (1 / 100) ∧
      (Psych.process_interaction a partner_cps s d).cps =
        max (min (a.cps + 5 / 100 *
          ((2 * (a.pps + partner_cps * (s * d) * (1 / 100)) - 1) - a.cps)) 1) (-1) := by
  intro a pc s d
  exact ⟨process_interaction_pps a pc s d, by simp [Psych.process_interaction, Psych.update_cps]⟩

/-- Claim C4: after any finite sequence of processed interactions cps stays in
the interval from -1 to 1 (given the initial cps is drawn there, as in
engineer.py line 28), while pps is unbounded: repeated interactions with
any positive-cps partner eventually push pps above any fixed bound. -/
theorem C4_cps_clamped_pps_unbounded :
    (∀ (a : Psych.PsychState) (l : List (ℚ × ℚ × ℚ)),
      -1 ≤ a.cps → a.cps ≤ 1 →
      -1 ≤ (Psych.processSeq a l).cps ∧ (Psych.processSeq a l).cps ≤ 1) ∧
    (∀ (M : ℚ) (a : Psych.PsychState) (c s d : ℚ), 0 < c → 0 < s → 0 < d →
      ∃ n : ℕ, M < (Psych.processSeq a (List.replicate n (c, s, d))).pps) := by
  constructor
  · intro a l
    induction l generalizing a with
    | nil => intro h1 h2; exact ⟨h1, h2⟩
    | cons e rest ih =>
      intro _ _
      have hstep : Psych.processSeq a (e :: rest) =
          Psych.processSeq (Psych.process_interaction a e.1 e.2.1 e.2.2) rest := rfl
      rw [hstep]
      exact ih _ (update_cps_bounds _).1 (update_cps_bounds _).2
  · intro M a c s d hc hs hd
    have hk : 0 < c * (s * d) * (1 / 100) := by positivity
    obtain ⟨n, hn⟩ := exists_nat_gt ((M - a.pps) / (c * (s * d) * (1 / 100)))
    refine ⟨n, ?_⟩
    rw [processSeq_replicate_pps]
    have h2 := (div_lt_iff₀ hk).mp hn
    linarith

/-- Witness for C4 at concrete inputs: a state with cps 0 stays in bounds
after one interaction, and interactions with a partner of cps 1 push pps
above 1. -/
theorem C4_witness :
    (-1 ≤ (Psych.processSeq ⟨0, 0⟩ [(1, 1, 1)]).cps ∧
      (Psych.processSeq ⟨0, 0⟩ [(1, 1, 1)]).cps ≤ 1) ∧
    ∃ n : ℕ, (1 : ℚ) <
      (Psych.processSeq ⟨0, 0⟩ (List.replicate n ((1 : ℚ), (1 : ℚ), (1 : ℚ)))).pps :=
  ⟨C4_cps_clamped_pps_unbounded.1 ⟨0, 0⟩ [(1, 1, 1)] (by norm_num) (by norm_num),
   C4_cps_clamped_pps_unbounded.2 1 ⟨0, 0⟩ 1 1 1 (by norm_num) (by norm_num) (by norm_num)⟩

end PsychClaims

section KnowledgeClaims

/-- Claim C5: receiving the same shared concept from the same sender twice is
idempotent on the learned set (the second call leaves it unchanged), both
calls record in the Knowledge Network that the sender knows the concept,
the first call returns true exactly when the concept was new, and the
second call returns false. -/
theorem C5_receive_shared_knowledge_idempotent :
    ∀ (km : Knowledge.KM) (s c : String),
      ((Knowledge.receive_shared_knowledge
          (Knowledge.receive_shared_knowledge km s c).1 s c).1).learned =
        ((Knowledge.receive_shared_knowledge km s c).1).learned ∧
      c ∈ ((Knowledge.receive_shared_knowledge km s c).1).network s ∧
      c ∈ ((Knowledge.receive_shared_knowledge
          (Knowledge.receive_shared_knowledge km s c).1 s c).1).network s ∧
      (((Knowledge.receive_shared_knowledge km s c).2 = true) ↔ c ∉ km.learned) ∧
      ((Knowledge.receive_shared_knowledge
          (Knowledge.receive_shared_knowledge km s c).1 s c).2 = false) := by
  intro km s c
  by_cases h : c ∈ km.learned
  · simp [Knowledge.receive_shared_knowledge, Knowledge.add_agent_knowledge, h]
  · simp [Knowledge.receive_shared_knowledge, Knowledge.add_agent_knowledge, h]

/-- Claim C6 amended: the self-study path deletes the progress entry at the
moment it moves a concept into the learned set, but
receive_shared_knowledge never touches the progress map at all, so a
concept received from a peer while partially self-studied stays in the
progress map even though it is now learned. -/
theorem C6_progress_entry_deletion :
    ∀ (km : Knowledge.KM) (c s c2 : String) (inc : ℚ),
      ((Knowledge.learn_concept km c inc).2 = true →
        ((Knowledge.learn_concept km c inc).1).progress c = none) ∧
      ((Knowledge.receive_shared_knowledge km s c2).1).progress = km.progress := by
  intro km c s c2 inc
  constructor
  · intro hlearned
    unfold Knowledge.learn_concept at hlearned ⊢
    by_cases h : c ∈ km.learned
    · simp [h] at hlearned
    · by_cases hp : (1 : ℚ) ≤ (km.progress c).getD 0 + inc
      · simp [h, hp]
      · simp [h, hp] at hlearned
  · by_cases h : c2 ∈ km.learned <;>
      simp [Knowledge.receive_shared_knowledge, h]

/-- Empty knowledge-manager state: nothing learned, no progress entries,
empty belief network. -/
def exKM0 : Knowledge.KM :=
  ⟨∅, fun _ => none, fun _ => ∅⟩

/-- State after one self-study attempt on K1 with increment one tenth. -/
def exKM1 : Knowledge.KM :=
  (Knowledge.learn_concept exKM0 "K1" (1 / 10)).1

/-- State after agent A then shares K1 with us. -/
def exKM2 : Knowledge.KM :=
  (Knowledge.receive_shared_knowledge exKM1 "A" "K1").1

/-- Claim C6 counterexample: after a partial self-study step on K1 (progress one
tenth) followed by receiving K1 from a peer, K1 is in the learned set yet
its progress entry still exists, contradicting the claim that the entry is
deleted the moment the concept enters the learned set by whichever path. -/
theorem C6_counterexample :
    "K1" ∈ exKM2.learned ∧ exKM2.progress "K1" = some (1 / 10) := by
  have h1 : exKM1 = ⟨∅, fun k => if k = "K1" then some (1 / 10) else none, fun _ => ∅⟩ := by
    unfold exKM1 exKM0 Knowledge.learn_concept
    norm_num
  constructor
  · rw [exKM2, Knowledge.receive_shared_knowledge, h1]
    norm_num
  · rw [exKM2, Knowledge.receive_shared_knowledge, h1]
    norm_num

/-- Witness for C6 at a concrete input: a full-strength self-study step
(increment 1) learns K1 and leaves no progress entry behind. -/
theorem C6_witness :
    ((Knowledge.learn_concept exKM0 "K1" 1).1).progress "K1" = none :=
  (C6_progress_entry_deletion exKM0 "K1" "A" "K1" 1).1
    (by unfold Knowledge.learn_concept exKM0; norm_num)

/-- Claim C10: add_agent_knowledge is idempotent (a repeated call with the same
agent id and concept produces exactly the same network) and monotone (no
call removes an existing belief entry). -/
theorem C10_add_agent_knowledge_idempotent_monotone :
    ∀ (net : String → Finset String) (u c : String),
      Knowledge.add_agent_knowledge (Knowledge.add_agent_knowledge net u c) u c =
        Knowledge.add_agent_knowledge net u c ∧
      ∀ u2 c2, c2 ∈ net u2 → c2 ∈ Knowledge.add_agent_knowledge net u c u2 := by
  intro net u c
  constructor
  · funext k
    by_cases h : k = u <;> simp [Knowledge.add_agent_knowledge, h]
  · intro u2 c2 hmem
    by_cases h : u2 = u
    · subst h
      simp [Knowledge.add_agent_knowledge]
      exact Or.inr hmem
    · simp [Knowledge.add_agent_knowledge, h, hmem]

/-- Witness for C10 at a concrete input: an existing belief entry survives
a later add for a different agent id. -/
theorem C10_witness :
    "K1" ∈ Knowledge.add_agent_knowledge (fun _ => ({"K1"} : Finset String)) "a" "K2" "b" :=
  (C10_add_agent_knowledge_idempotent_monotone (fun _ => {"K1"}) "a" "K2").2 "b" "K1" (by simp)

end KnowledgeClaims

section InteractionClaims

/-- Claim C8 evaluation: processing a HELP_REQUEST increments the
help-requests-made counter by one, but then raises (the handler calls the
nowhere-defined method create_knowledge_request_details), so no
interaction record is appended and nothing is forwarded; moreover the
forwarding statement that would run passes InteractionType.HELP_REQUEST,
which differs from KNOWLEDGE_REQUEST. -/
theorem C8_help_request_crashes :
    ∀ s : IH.IHState,
      ((IH.processHelpRequest s).1).help_requests_made = s.help_requests_made + 1 ∧
      isOkB (IH.processHelpRequest s).2 = false ∧
      ((IH.processHelpRequest s).1).historyLen = s.historyLen ∧
      IH.helpRequestForwardType ≠ IH.InteractionType.KNOWLEDGE_REQUEST := by
  intro s
  refine ⟨rfl, rfl, rfl, by decide⟩

end InteractionClaims

section MovementClaims

/-- Definitional equation of the selection loop on the empty list. -/
lemma bestMoveAux_nil (tp : Movement.Pos) (acc : Option (Movement.Pos × Int)) :
    Movement.bestMoveAux tp [] acc = acc := rfl

/-- Definitional equation of the selection loop on a cons with empty
accumulator. -/
lemma bestMoveAux_cons_none (tp s : Movement.Pos) (rest : List Movement.Pos) :
    Movement.bestMoveAux tp (s :: rest) none =
      Movement.bestMoveAux tp rest (some (s, Movement.sqDist s tp)) := rfl

/-- Definitional equation of the selection loop on a cons with a current
best candidate. -/
lemma bestMoveAux_cons_some (tp s : Movement.Pos) (rest : List Movement.Pos)
    (b : Movement.Pos) (bd : Int) :
    Movement.bestMoveAux tp (s :: rest) (some (b, bd)) =
      if Movement.sqDist s tp < bd then
        Movement.bestMoveAux tp rest (some (s, Movement.sqDist s tp))
      else Movement.bestMoveAux tp rest (some (b, bd)) := rfl

/-- Loop invariant of the selection loop: started from a candidate whose
stored distance is its distance to the target, it returns a candidate that
is the start candidate or a list element, whose stored distance is its own
distance, never worse than the start candidate and never worse than any
list element. -/
lemma bestMoveAux_spec (tp : Movement.Pos) :
    ∀ (l : List Movement.Pos) (b : Movement.Pos),
      ∃ r rd, Movement.bestMoveAux tp l (some (b, Movement.sqDist b tp)) = some (r, rd) ∧
        rd = Movement.sqDist r tp ∧ (r ∈ l ∨ r = b) ∧ rd ≤ Movement.sqDist b tp ∧
        ∀ c ∈ l, rd ≤ Movement.sqDist c tp := by
  intro l
  induction l with
  | nil =>
    intro b
    exact ⟨b, Movement.sqDist b tp, rfl, rfl, Or.inr rfl, le_refl _, by simp⟩
  | cons s rest ih =>
    intro b
    rw [bestMoveAux_cons_some]
    by_cases hlt : Movement.sqDist s tp < Movement.sqDist b tp
    · rw [if_pos hlt]
      obtain ⟨r, rd, heq, hrd, hmem, hle, hall⟩ := ih s
      refine ⟨r, rd, heq, hrd, ?_, ?_, ?_⟩
      · rcases hmem with hm | hm
        · exact Or.inl (List.mem_cons_of_mem _ hm)
        · exact Or.inl (hm ▸ List.mem_cons_self _ _)
      · exact le_of_lt (lt_of_le_of_lt hle hlt)
      · intro c hcm
        rcases List.mem_cons.mp hcm with hcm | hcm
        · exact hcm ▸ hle
        · exact hall c hcm
    · rw [if_neg hlt]
      push_neg at hlt
      obtain ⟨r, rd, heq, hrd, hmem, hle, hall⟩ := ih b
      refine ⟨r, rd, heq, hrd, ?_, hle, ?_⟩
      · rcases hmem with hm | hm
        · exact Or.inl (List.mem_cons_of_mem _ hm)
        · exact Or.inr hm
      · intro c hcm
        rcases List.mem_cons.mp hcm with hcm | hcm
        · exact hcm ▸ le_trans hle hlt
        · exact hall c hcm

/-- Reduction of the buggy movement-controller loop: once a candidate is
stored, the constant score never beats itself, so the stored candidate is
final. -/
lemma mcBestAux_const (pos tp : Movement.Pos) :
    ∀ (l : List Movement.Pos) (b : Movement.Pos),
      Movement.mcBestAux pos tp l (some (b, Movement.sqDist pos tp)) =
        some (b, Movement.sqDist pos tp) := by
  intro l
  induction l with
  | nil => intro b; rfl
  | cons s rest ih =>
    intro b
    show (if Movement.sqDist pos tp < Movement.sqDist pos tp then
        Movement.mcBestAux pos tp rest (some (s, Movement.sqDist pos tp))
      else Movement.mcBestAux pos tp rest (some (b, Movement.sqDist pos tp))) =
      some (b, Movement.sqDist pos tp)
    rw [if_neg (lt_irrefl _)]
    exact ih b

/-- Claim C9 amended: move_toward_agent (engineer.py) returns false exactly when
there is no target or the Moore neighborhood is empty; otherwise it moves
to a neighborhood cell of minimum distance to the target, with no
beneficial-move requirement, so the distance to the target is merely
minimal over the neighborhood and can exceed the current distance (see the
counterexample at the target cell).  The movement_controller.py sibling
scores every candidate by the distance from the current cell, so it always
moves to the first enumerated candidate. -/
theorem C9_move_toward_agent_minimum :
    ∀ (w h : Nat) (pos tp : Movement.Pos),
      Movement.move_toward_agent w h pos none = none ∧
      (Movement.mooreNeighborhood w h pos = [] →
        Movement.move_toward_agent w h pos (some tp) = none) ∧
      (Movement.mooreNeighborhood w h pos ≠ [] →
        ∃ m, Movement.move_toward_agent w h pos (some tp) = some m) ∧
      (∀ m, Movement.move_toward_agent w h pos (some tp) = some m →
        m ∈ Movement.mooreNeighborhood w h pos ∧
        ∀ c ∈ Movement.mooreNeighborhood w h pos,
          Movement.sqDist m tp ≤ Movement.sqDist c tp) ∧
      Movement.mc_move_toward_agent w h pos (some tp) =
        (Movement.mooreNeighborhood w h pos).head? := by
  intro w h pos tp
  refine ⟨rfl, ?_, ?_, ?_, ?_⟩
  · intro hnil
    simp [Movement.move_toward_agent, hnil, bestMoveAux_nil]
  · intro hne
    obtain ⟨s, rest, hl⟩ := List.exists_cons_of_ne_nil hne
    obtain ⟨r, rd, heq, -, -, -, -⟩ := bestMoveAux_spec tp rest s
    refine ⟨r, ?_⟩
    simp [Movement.move_toward_agent, hl, bestMoveAux_cons_none, heq]
  · intro m hm
    rcases hl : Movement.mooreNeighborhood w h pos with _ | ⟨s, rest⟩
    · rw [Movement.move_toward_agent] at hm
      simp [hl, bestMoveAux_nil] at hm
    · obtain ⟨r, rd, heq, hrd, hmem, hle, hall⟩ := bestMoveAux_spec tp rest s
      rw [Movement.move_toward_agent] at hm
      simp only [hl, bestMoveAux_cons_none, heq, Option.map_some] at hm
      have hmr : m = r := by simpa using hm.symm
      subst hmr
      constructor
      · rcases hmem with hm2 | hm2
        · exact List.mem_cons_of_mem _ hm2
        · exact hm2 ▸ List.mem_cons_self _ _
      · intro c hcm
        rcases List.mem_cons.mp hcm with hcm | hcm
        · rw [hcm, ← hrd]
          exact hle
        · rw [← hrd]
          exact hall c hcm
  · rcases hl : Movement.mooreNeighborhood w h pos with _ | ⟨s, rest⟩
    · simp [Movement.mc_move_toward_agent, hl]
      rfl
    · have : Movement.mcBestAux pos tp (s :: rest) none =
          Movement.mcBestAux pos tp rest (some (s, Movement.sqDist pos tp)) := rfl
      simp [Movement.mc_move_toward_agent, hl, this, mcBestAux_const]

/-- Witness for C9 at a concrete input: on the 10 by 10 grid at cell
(1, 1) with target (3, 3), the chosen cell is in the Moore neighborhood
and minimizes the distance over it. -/
theorem C9_witness :
    (2, 2) ∈ Movement.mooreNeighborhood 10 10 (1, 1) ∧
    ∀ c ∈ Movement.mooreNeighborhood 10 10 (1, 1),
      Movement.sqDist (2, 2) (3, 3) ≤ Movement.sqDist c (3, 3) :=
  (C9_move_toward_agent_minimum 10 10 (1, 1) (3, 3)).2.2.2.1 (2, 2) (by decide)

/-- Claim C9 counterexample: an agent standing on the target cell (1, 1) of a 10
by 10 grid still moves (the call returns true) and the move strictly
increases the distance to the target from 0 to 1, refuting both the
claimed false return when no beneficial move exists and the claimed
non-increase of the distance. -/
theorem C9_counterexample :
    Movement.move_toward_agent 10 10 (1, 1) (some (1, 1)) = some (0, 1) ∧
    Movement.sqDist (0, 1) (1, 1) = 1 ∧ Movement.sqDist (1, 1) (1, 1) = 0 := by
  refine ⟨by decide, by decide, by decide⟩

end MovementClaims
